import Mathlib

/-
Verification of the Digital-Hiring evaluation pipeline.

The repository's `src/` tree contains the React frontend
(`FileUpload.js` holding the FileUpload, ResultsDisplay and
ProcessingStatus components) together with documentation.  The FastAPI
backend (job manager, stage orchestration, scoring engine) is described
by the specification but its source is not present under `src/`; those
parts are modelled from the spec, as marked on each definition.
Frontend functions (`getScoreColor`, `getRecommendationStyle`,
`handleSubmit`'s validation and form building, `pollStatus`'s
active-step update) are embedded directly from
`src/frontend/src/components/FileUpload.js`.

Scores are JavaScript/Python numbers; they are modelled as rationals.
-/

namespace DigitalHiring

/-- A single stage's normalized output.  Modelled from the spec:
a value in [0,100], a weight in (0,1], and an explanation object
with description and interpretation fields (the breakdown map is
elided as no claim mentions its contents). -/
structure ComponentScore where
  value : ℚ
  weight : ℚ
  description : String
  interpretation : String
deriving DecidableEq

/-- Modelled from the spec: the Scoring Engine's cumulative score,
`emotion.value*0.40 + audio.value*0.30 + text.value*0.30`, rounded to
the nearest whole percentage point (scoring_engine.py is not under
src/). -/
def cumulativeScore (e a t : ℚ) : ℤ :=
  round (e * 0.40 + a * 0.30 + t * 0.30)

/-- Claim C1: for component scores in [0,100] the cumulative score equals
round(0.4*e + 0.3*a + 0.3*t) and lies in [0,100]; for emotion=90,
audio=80, text=70 it is 81. -/
theorem cumulativeScore_correct :
    (∀ e a t : ℚ, 0 ≤ e → e ≤ 100 → 0 ≤ a → a ≤ 100 → 0 ≤ t → t ≤ 100 →
      cumulativeScore e a t = round (0.4 * e + 0.3 * a + 0.3 * t) ∧
      0 ≤ cumulativeScore e a t ∧ cumulativeScore e a t ≤ 100) ∧
    cumulativeScore 90 80 70 = 81 := by
  constructor
  · intro e a t he0 he1 ha0 ha1 ht0 ht1
    refine ⟨by unfold cumulativeScore; congr 1; ring, ?_, ?_⟩
    · unfold cumulativeScore
      rw [round_eq]
      have h : (0 : ℚ) + 1 / 2 ≤ e * 0.40 + a * 0.30 + t * 0.30 + 1 / 2 := by
        nlinarith
      calc (0 : ℤ) = ⌊(0 : ℚ) + 1 / 2⌋ := by norm_num
        _ ≤ ⌊e * 0.40 + a * 0.30 + t * 0.30 + 1 / 2⌋ := Int.floor_mono h
    · unfold cumulativeScore
      rw [round_eq]
      have h : e * 0.40 + a * 0.30 + t * 0.30 + 1 / 2 ≤ (100 : ℚ) + 1 / 2 := by
        nlinarith
      calc ⌊e * 0.40 + a * 0.30 + t * 0.30 + 1 / 2⌋
          ≤ ⌊(100 : ℚ) + 1 / 2⌋ := Int.floor_mono h
        _ = 100 := by norm_num
  · unfold cumulativeScore
    norm_num [round_eq]

/-- Witness for C1: instantiated at e = 90, a = 80, t = 70. -/
theorem cumulativeScore_correct_witness :
    cumulativeScore 90 80 70 = round (0.4 * (90 : ℚ) + 0.3 * 80 + 0.3 * 70) ∧
    0 ≤ cumulativeScore 90 80 70 ∧ cumulativeScore 90 80 70 ≤ 100 :=
  cumulativeScore_correct.1 90 80 70 (by norm_num) (by norm_num)
    (by norm_num) (by norm_num) (by norm_num) (by norm_num)

/-- Modelled from the spec: the Scoring Engine's verdict tiers applied
to the cumulative score (scoring_engine.py is not under src/):
at least 85 gives HIGHLY RECOMMENDED, at least 70 gives RECOMMENDED,
at least 55 gives CONDITIONAL, below 55 gives NOT RECOMMENDED. -/
def recommendationOf (s : ℤ) : String :=
  if 85 ≤ s then "HIGHLY RECOMMENDED"
  else if 70 ≤ s then "RECOMMENDED"
  else if 55 ≤ s then "CONDITIONAL"
  else "NOT RECOMMENDED"

/-- Embedded from src ResultsDisplay.getScoreColor: the chip/chart
color for a score, keyed off the thresholds 85, 70, 55. -/
def getScoreColor (score : ℚ) : String :=
  if 85 ≤ score then "#4caf50"
  else if 70 ≤ score then "#2196f3"
  else if 55 ≤ score then "#ff9800"
  else "#f44336"

/-- Claim C2: for every cumulative score, the verdict is HIGHLY
RECOMMENDED exactly when s is at least 85, RECOMMENDED exactly on
[70,85), CONDITIONAL exactly on [55,70), NOT RECOMMENDED exactly
below 55 (so the four tiers are exhaustive and mutually exclusive);
the frontend getScoreColor keys its colors off the same boundaries. -/
theorem verdict_tiers :
    (∀ s : ℤ, 0 ≤ s → s ≤ 100 →
      (recommendationOf s = "HIGHLY RECOMMENDED" ↔ 85 ≤ s) ∧
      (recommendationOf s = "RECOMMENDED" ↔ 70 ≤ s ∧ s < 85) ∧
      (recommendationOf s = "CONDITIONAL" ↔ 55 ≤ s ∧ s < 70) ∧
      (recommendationOf s = "NOT RECOMMENDED" ↔ s < 55)) ∧
    (∀ q : ℚ,
      (getScoreColor q = "#4caf50" ↔ 85 ≤ q) ∧
      (getScoreColor q = "#2196f3" ↔ 70 ≤ q ∧ q < 85) ∧
      (getScoreColor q = "#ff9800" ↔ 55 ≤ q ∧ q < 70) ∧
      (getScoreColor q = "#f44336" ↔ q < 55)) := by
  constructor
  · intro s _ _
    unfold recommendationOf
    split_ifs with h1 h2 h3 <;>
      refine ⟨?_, ?_, ?_, ?_⟩ <;> constructor <;> intro hx <;>
      first
        | rfl
        | omega
        | exact absurd hx (by decide)
  · intro q
    unfold getScoreColor
    split_ifs with h1 h2 h3 <;>
      refine ⟨?_, ?_, ?_, ?_⟩ <;> constructor <;> intro hx <;>
      first
        | rfl
        | exact absurd hx (by decide)
        | (exact ⟨by linarith, by linarith⟩)
        | linarith

/-- Witness for C2: at cumulative score 81 the verdict is RECOMMENDED. -/
theorem verdict_tiers_witness : recommendationOf 81 = "RECOMMENDED" :=
  (verdict_tiers.1 81 (by norm_num) (by norm_num)).2.1.mpr (by norm_num)

/-- Embedded from src ProcessingStatus.pollStatus: the active-step
update keyed off the reported progress.  Progress of at most 25 sets
step 0 (Video), at most 50 sets step 1 (Audio), at most 75 sets step 2
(Text), below 100 sets step 3 (Scoring); at 100 or above no branch
fires and the active step is left unchanged (none). -/
def activeStepUpdate (progress : ℤ) : Option ℕ :=
  if progress ≤ 25 then some 0
  else if progress ≤ 50 then some 1
  else if progress ≤ 75 then some 2
  else if progress < 100 then some 3
  else none

/-- Stage index determined by which of the spec's protocol progress
ranges the progress falls in (from the spec's words, for comparison
with the embedded UI code): Video owns 0 to 40, Audio 40 to 70,
Text 70 to 90, Scoring 90 to 100. -/
def specStageOfProgress (p : ℤ) : Option ℕ :=
  if 0 ≤ p ∧ p < 40 then some 0
  else if p < 70 then some 1
  else if p < 90 then some 2
  else if p ≤ 100 then some 3
  else none

/-- Counterexample to claim C3: at reported progress 30 — strictly
inside Video's protocol range 0 to 40 under any reading of the
boundaries — the UI sets active step 1 (Audio), not the Video stage
the protocol range determines. -/
theorem activeStep_protocol_counterexample :
    activeStepUpdate 30 = some 1 ∧ specStageOfProgress 30 = some 0 ∧
    activeStepUpdate 30 ≠ specStageOfProgress 30 := by
  refine ⟨rfl, rfl, ?_⟩
  intro h
  simp [activeStepUpdate, specStageOfProgress] at h

/-- Claim C3 as amended: the UI's displayed active stage is keyed off
quartile boundaries of the reported progress, not the backend stage
ranges: at most 25 shows Video, 26 to 50 shows Audio, 51 to 75 shows
Text, 76 to 99 shows Scoring, and at 100 the step is left unchanged. -/
theorem activeStep_quartiles (p : ℤ) :
    (p ≤ 25 → activeStepUpdate p = some 0) ∧
    (25 < p → p ≤ 50 → activeStepUpdate p = some 1) ∧
    (50 < p → p ≤ 75 → activeStepUpdate p = some 2) ∧
    (75 < p → p < 100 → activeStepUpdate p = some 3) ∧
    (100 ≤ p → activeStepUpdate p = none) := by
  unfold activeStepUpdate
  split_ifs <;> refine ⟨?_, ?_, ?_, ?_, ?_⟩ <;> intros <;>
    first
      | rfl
      | (exfalso; omega)

/-- Witness for amended C3: at progress 60 the UI shows step 2. -/
theorem activeStep_quartiles_witness : activeStepUpdate 60 = some 2 :=
  (activeStep_quartiles 60).2.2.1 (by norm_num) (by norm_num)

/-- A chip style from src ResultsDisplay: background color and text
color. -/
structure RecStyle where
  backgroundColor : String
  color : String
deriving DecidableEq

/-- Embedded from src ResultsDisplay.getRecommendationStyle: the
styles object literal mapping each known recommendation to its chip
style. -/
def recommendationStyles : List (String × RecStyle) :=
  [("HIGHLY RECOMMENDED", ⟨"#e8f5e8", "#2e7d32"⟩),
   ("RECOMMENDED", ⟨"#e3f2fd", "#1565c0"⟩),
   ("CONDITIONAL", ⟨"#fff3e0", "#ef6c00"⟩),
   ("NOT RECOMMENDED", ⟨"#ffebee", "#c62828"⟩)]

/-- The value a JavaScript property access on the styles object
literal can produce: one of the object's own style entries, a property
inherited from Object.prototype (a function or object, hence truthy),
or undefined. -/
inductive JsLookupResult where
  | styleVal (st : RecStyle)
  | protoProp (name : String)
  | undef
deriving DecidableEq

/-- The own property names of Object.prototype, inherited by every
object literal: indexing the styles object with one of these yields
the inherited property instead of undefined. -/
def objectProtoProps : List String :=
  ["constructor", "hasOwnProperty", "isPrototypeOf",
   "propertyIsEnumerable", "toLocaleString", "toString", "valueOf",
   "__defineGetter__", "__defineSetter__", "__lookupGetter__",
   "__lookupSetter__", "__proto__"]

/-- JavaScript indexing styles[r] on the styles object literal: an own
key yields its style entry; otherwise the prototype chain is consulted
and a property of Object.prototype yields that inherited value; only
when both miss is the result undefined. -/
def jsIndexStyles (r : String) : JsLookupResult :=
  match recommendationStyles.lookup r with
  | some st => JsLookupResult.styleVal st
  | none =>
      if r ∈ objectProtoProps then JsLookupResult.protoProp r
      else JsLookupResult.undef

/-- JavaScript truthiness of a lookup result: styles and inherited
Object.prototype properties (functions/objects) are truthy, undefined
is falsy. -/
def jsTruthy : JsLookupResult → Bool
  | JsLookupResult.undef => false
  | _ => true

/-- Embedded from src ResultsDisplay.getRecommendationStyle: the
expression styles[recommendation] with the fallback styles of
CONDITIONAL taken when the indexing result is falsy. -/
def getRecommendationStyle (r : String) : JsLookupResult :=
  if jsTruthy (jsIndexStyles r) then jsIndexStyles r
  else JsLookupResult.styleVal ⟨"#fff3e0", "#ef6c00"⟩

/-- Counterexample to claim C10: at the input string toString — not
one of the four known recommendations — the source returns the truthy
toString property inherited from Object.prototype, not the CONDITIONAL
style, because JavaScript property access consults the prototype
chain before the fallback of the or-expression can apply. -/
theorem recommendationStyle_proto_counterexample :
    getRecommendationStyle "toString" = JsLookupResult.protoProp "toString" ∧
    getRecommendationStyle "toString" ≠ getRecommendationStyle "CONDITIONAL" := by
  decide

/-- Claim C10 as amended: each of the four known recommendations gets
its dedicated style; every other string that is not an inherited
Object.prototype property name falls back to the CONDITIONAL style;
an inherited property name yields that inherited truthy property
instead; and no input ever yields undefined. -/
theorem recommendationStyle_characterization :
    getRecommendationStyle "HIGHLY RECOMMENDED" =
      JsLookupResult.styleVal ⟨"#e8f5e8", "#2e7d32"⟩ ∧
    getRecommendationStyle "RECOMMENDED" =
      JsLookupResult.styleVal ⟨"#e3f2fd", "#1565c0"⟩ ∧
    getRecommendationStyle "CONDITIONAL" =
      JsLookupResult.styleVal ⟨"#fff3e0", "#ef6c00"⟩ ∧
    getRecommendationStyle "NOT RECOMMENDED" =
      JsLookupResult.styleVal ⟨"#ffebee", "#c62828"⟩ ∧
    (∀ s : String, s ≠ "HIGHLY RECOMMENDED" → s ≠ "RECOMMENDED" →
      s ≠ "CONDITIONAL" → s ≠ "NOT RECOMMENDED" → s ∉ objectProtoProps →
      getRecommendationStyle s = getRecommendationStyle "CONDITIONAL") ∧
    (∀ s : String, s ∈ objectProtoProps →
      getRecommendationStyle s = JsLookupResult.protoProp s) ∧
    (∀ s : String, getRecommendationStyle s ≠ JsLookupResult.undef) := by
  refine ⟨rfl, rfl, rfl, rfl, ?_, ?_, ?_⟩
  · intro s h1 h2 h3 h4 hp
    have e1 : (s == "HIGHLY RECOMMENDED") = false := beq_eq_false_iff_ne.mpr h1
    have e2 : (s == "RECOMMENDED") = false := beq_eq_false_iff_ne.mpr h2
    have e3 : (s == "CONDITIONAL") = false := beq_eq_false_iff_ne.mpr h3
    have e4 : (s == "NOT RECOMMENDED") = false := beq_eq_false_iff_ne.mpr h4
    have hr : recommendationStyles.lookup s = none := by
      simp [recommendationStyles, List.lookup, e1, e2, e3, e4]
    have hi : jsIndexStyles s = JsLookupResult.undef := by
      unfold jsIndexStyles
      rw [hr, if_neg hp]
    unfold getRecommendationStyle
    rw [hi]
    decide
  · intro s hp
    simp only [objectProtoProps, List.mem_cons, List.not_mem_nil,
      or_false] at hp
    rcases hp with h | h | h | h | h | h | h | h | h | h | h | h <;>
      subst h <;> decide
  · intro s
    unfold getRecommendationStyle
    cases hv : jsIndexStyles s with
    | styleVal st => simp [jsTruthy]
    | protoProp n => simp [jsTruthy]
    | undef => simp [jsTruthy]

/-- Witness for amended C10: a string unknown to both the styles
object and Object.prototype falls back to the CONDITIONAL style. -/
theorem recommendationStyle_characterization_witness :
    getRecommendationStyle "PENDING" = getRecommendationStyle "CONDITIONAL" :=
  recommendationStyle_characterization.2.2.2.2.1 "PENDING"
    (by decide) (by decide) (by decide) (by decide) (by decide)

/-- Model of JavaScript String.prototype.trim: drop whitespace
characters from both ends of the string. -/
def jsTrim (s : String) : String :=
  ⟨((s.data.dropWhile Char.isWhitespace).reverse.dropWhile
      Char.isWhitespace).reverse⟩

/-- Embedded from src FileUpload.handleSubmit: the multipart form data
built for the upload request.  The video, resume and job_description
fields are always appended; leetcode_username is appended (untrimmed)
exactly when the entered username is non-empty after trimming. -/
def buildFormData (videoName resumeName jobDescription leetcodeUsername :
    String) : List (String × String) :=
  [("video", videoName), ("resume", resumeName),
   ("job_description", jobDescription)] ++
  (if jsTrim leetcodeUsername ≠ "" then
    [("leetcode_username", leetcodeUsername)]
  else [])

/-- Embedded from src FileUpload.handleSubmit: when the video file,
resume file or trimmed job description is missing, an error message is
set and no upload request is issued (none); otherwise the form data is
posted. -/
def handleSubmit (videoFile resumeFile : Option String)
    (jobDescription leetcodeUsername : String) :
    Option (List (String × String)) :=
  match videoFile, resumeFile with
  | some v, some r =>
      if jsTrim jobDescription = "" then none
      else some (buildFormData v r jobDescription leetcodeUsername)
  | _, _ => none

/-- Claim C9: every upload request actually sent contains the video,
resume and job_description fields, and contains the leetcode_username
field exactly when the entered username is non-empty after trimming. -/
theorem formData_fields (videoFile resumeFile : Option String)
    (jobDescription leetcodeUsername : String)
    (fd : List (String × String))
    (h : handleSubmit videoFile resumeFile jobDescription leetcodeUsername =
      some fd) :
    "video" ∈ fd.map Prod.fst ∧ "resume" ∈ fd.map Prod.fst ∧
    "job_description" ∈ fd.map Prod.fst ∧
    ("leetcode_username" ∈ fd.map Prod.fst ↔ jsTrim leetcodeUsername ≠ "") := by
  match videoFile, resumeFile with
  | none, _ => simp [handleSubmit] at h
  | some v, none => simp [handleSubmit] at h
  | some v, some r =>
    rw [handleSubmit] at h
    by_cases hjd : jsTrim jobDescription = ""
    · rw [if_pos hjd] at h
      exact absurd h (by simp)
    · rw [if_neg hjd] at h
      have hfd : fd = buildFormData v r jobDescription leetcodeUsername := by
        injection h with h0
        exact h0.symm
      subst hfd
      unfold buildFormData
      by_cases hlc : jsTrim leetcodeUsername = "" <;>
        simp [hlc]

/-- Witness for C9: a concrete sent submission with an empty username
carries exactly the three required fields and no leetcode_username. -/
theorem formData_fields_witness :
    "video" ∈ ([("video", "clip.mp4"), ("resume", "cv.pdf"),
      ("job_description", "role")].map Prod.fst) ∧
    "resume" ∈ ([("video", "clip.mp4"), ("resume", "cv.pdf"),
      ("job_description", "role")].map Prod.fst) ∧
    "job_description" ∈ ([("video", "clip.mp4"), ("resume", "cv.pdf"),
      ("job_description", "role")].map Prod.fst) ∧
    ("leetcode_username" ∈ ([("video", "clip.mp4"), ("resume", "cv.pdf"),
      ("job_description", "role")].map Prod.fst) ↔
      jsTrim "" ≠ "") :=
  formData_fields (some "clip.mp4") (some "cv.pdf") "role" ""
    [("video", "clip.mp4"), ("resume", "cv.pdf"), ("job_description", "role")]
    (by decide)

/-- Modelled from the spec: strength statements derived from which
component scores fall above the fixed per-component threshold 75
(scoring_engine.py is not under src/). -/
def strengthsOf (e a t : ℚ) : List String :=
  (if 75 ≤ e then ["Strong confidence and emotional stability"] else []) ++
  (if 75 ≤ a then ["Clear and effective communication"] else []) ++
  (if 75 ≤ t then ["Strong skills match with the role"] else [])

/-- Modelled from the spec: improvement statements derived from which
component scores fall below the fixed per-component threshold 55
(scoring_engine.py is not under src/). -/
def improvementsOf (e a t : ℚ) : List String :=
  (if e < 55 then ["Work on confidence and emotional presence"] else []) ++
  (if a < 55 then ["Improve communication clarity"] else []) ++
  (if t < 55 then ["Develop skills required by the role"] else [])

/-- Verdict: categorical recommendation plus narrative text.  Modelled
from the spec's Result data model. -/
structure Verdict where
  recommendation : String
  summary : String
  strengths : List String
  improvements : List String
deriving DecidableEq

/-- Modelled from the spec: deterministic summary template keyed to the
recommendation and cumulative score. -/
def summaryOf (rec : String) (c : ℤ) : String :=
  "Overall score " ++ toString c ++ ": " ++ rec

/-- Modelled from the spec: the verdict derived from the cumulative
score and the three component score values. -/
def scoreVerdict (c : ℤ) (e a t : ℚ) : Verdict :=
  ⟨recommendationOf c, summaryOf (recommendationOf c) c,
   strengthsOf e a t, improvementsOf e a t⟩

/-- Result: the three ComponentScores, the cumulative score and the
Verdict.  Modelled from the spec's Result data model. -/
structure ScoreResult where
  emotionScore : ComponentScore
  audioScore : ComponentScore
  textScore : ComponentScore
  cumulative : ℤ
  verdict : Verdict
deriving DecidableEq

/-- Modelled from the spec: the Scoring Engine's pure Score function,
invoked only after all three ComponentScores exist. -/
def scoringEngine (es sa st : ComponentScore) : ScoreResult :=
  let c := cumulativeScore es.value sa.value st.value
  ⟨es, sa, st, c, scoreVerdict c es.value sa.value st.value⟩

/-- Job status.  Modelled from the spec's Job data model. -/
inductive JobStatus where
  | queued
  | processing
  | completed
  | error
deriving DecidableEq

/-- Error taxonomy.  Modelled from the spec's error handling design. -/
inductive JobError where
  | invalidSubmission
  | jobNotFound
  | jobNotReady
  | jobFailed (msg : String)
deriving DecidableEq

/-- A Job record.  Modelled from the spec's Job data model: status,
progress, message, optional error detail and optional final Result
(identity and created timestamp live in the job table). -/
structure Job where
  status : JobStatus
  progress : ℤ
  message : String
  errorDetail : Option String
  result : Option ScoreResult
deriving DecidableEq

/-- The Job Manager's in-memory job table.  Modelled from the spec:
jobs registered for lookup by id, with the next fresh id. -/
structure JobTable where
  jobs : List (ℕ × Job)
  nextId : ℕ
deriving DecidableEq

/-- A freshly created job.  Modelled from the spec: queued, progress
0. -/
def initialJob : Job :=
  ⟨JobStatus.queued, 0, "Queued for processing", none, none⟩

/-- A submission.  Modelled from the spec's SubmissionInput: video
reference, resume reference, job-description text and optional
external-profile username. -/
structure SubmissionInput where
  video : String
  resume : String
  jobDescription : String
  username : Option String
deriving DecidableEq

/-- Modelled from the spec: CreateJob validates that the three
required inputs are non-empty, failing with InvalidSubmission and
leaving the table untouched otherwise; on success it allocates a new
Job in queued state with progress 0 and registers it. -/
def createJob (input : SubmissionInput) (t : JobTable) :
    Except JobError ℕ × JobTable :=
  if input.video = "" ∨ input.resume = "" ∨ input.jobDescription = "" then
    (Except.error JobError.invalidSubmission, t)
  else
    (Except.ok t.nextId,
     ⟨(t.nextId, initialJob) :: t.jobs, t.nextId + 1⟩)

/-- Modelled from the spec: ListActive enumerates the ids of jobs not
yet deleted. -/
def listActive (t : JobTable) : List ℕ :=
  t.jobs.map Prod.fst

/-- Modelled from the spec: GetStatus returns the current snapshot,
failing with JobNotFound on an unknown id. -/
def getStatus (t : JobTable) (id : ℕ) :
    Except JobError (JobStatus × ℤ × String) :=
  match t.jobs.lookup id with
  | none => Except.error JobError.jobNotFound
  | some j => Except.ok (j.status, j.progress, j.message)

/-- Modelled from the spec: the result lookup on a known job — Result
only when completed, JobFailed carrying the stored detail when
errored, JobNotReady otherwise. -/
def getResultOfJob (j : Job) : Except JobError ScoreResult :=
  match j.status with
  | JobStatus.error =>
      Except.error (JobError.jobFailed (j.errorDetail.getD "Processing failed"))
  | JobStatus.completed =>
      match j.result with
      | some r => Except.ok r
      | none => Except.error JobError.jobNotReady
  | _ => Except.error JobError.jobNotReady

/-- Modelled from the spec: GetResult fails with JobNotFound on an
unknown id and otherwise defers to the per-job result lookup. -/
def getResult (t : JobTable) (id : ℕ) : Except JobError ScoreResult :=
  match t.jobs.lookup id with
  | none => Except.error JobError.jobNotFound
  | some j => getResultOfJob j

/-- One asynchronous pipeline execution: the sequence of job-state
snapshots it writes, the final state, and how many times each
analyzer and the Scoring Engine were invoked.  Modelled from the
spec's Pipeline Orchestrator. -/
structure PipelineRun where
  trace : List Job
  final : Job
  videoCalls : ℕ
  audioCalls : ℕ
  textCalls : ℕ
  scoringCalls : ℕ
deriving DecidableEq

/-- Modelled from the spec: the Pipeline Orchestrator drives one job
through Video, Audio and Text stages strictly in order with the fixed
progress ranges 0 to 40, 40 to 70, 70 to 90, then scoring at 90 to
100.  Each stage updates the message before invoking its analyzer; on
success it sets progress to the stage's high bound; on failure the job
moves to error with the failure message stored and no later stage or
the Scoring Engine runs; on success of all three the Scoring Engine
result is stored and the job completes with progress forced to 100.
Each analyzer call is represented by its outcome. -/
def runPipeline (va aa ta : Except String ComponentScore) : PipelineRun :=
  let j0 := initialJob
  let j1 : Job := { j0 with status := JobStatus.processing,
                            message := "Analyzing video for emotions" }
  match va with
  | Except.error m =>
      let jf : Job := { j1 with status := JobStatus.error,
                                errorDetail := some m }
      ⟨[j0, j1, jf], jf, 1, 0, 0, 0⟩
  | Except.ok sv =>
      let j2 : Job := { j1 with progress := 40 }
      let j3 : Job := { j2 with message := "Analyzing audio communication" }
      match aa with
      | Except.error m =>
          let jf : Job := { j3 with status := JobStatus.error,
                                    errorDetail := some m }
          ⟨[j0, j1, j2, j3, jf], jf, 1, 1, 0, 0⟩
      | Except.ok sa =>
          let j4 : Job := { j3 with progress := 70 }
          let j5 : Job := { j4 with message := "Analyzing text and skills" }
          match ta with
          | Except.error m =>
              let jf : Job := { j5 with status := JobStatus.error,
                                        errorDetail := some m }
              ⟨[j0, j1, j2, j3, j4, j5, jf], jf, 1, 1, 1, 0⟩
          | Except.ok st =>
              let j6 : Job := { j5 with progress := 90 }
              let j7 : Job := { j6 with message := "Calculating final scores" }
              let r := scoringEngine sv sa st
              let jf : Job := { j7 with status := JobStatus.completed,
                                        progress := 100,
                                        message := "Analysis complete",
                                        result := some r }
              ⟨[j0, j1, j2, j3, j4, j5, j6, j7, jf], jf, 1, 1, 1, 1⟩

/-- Rank of a status along the forward-only lifecycle. -/
def statusRank : JobStatus → ℕ
  | JobStatus.queued => 0
  | JobStatus.processing => 1
  | JobStatus.completed => 2
  | JobStatus.error => 2

/-- Whether a status is terminal. -/
def isTerminal : JobStatus → Bool
  | JobStatus.completed => true
  | JobStatus.error => true
  | _ => false

/-- A sample well-formed component score, used to instantiate
witnesses. -/
def sampleScore : ComponentScore :=
  ⟨80, 0.4, "Sample analysis", "Good performance"⟩

/-- Claim C4: when a stage analyzer fails, the job ends in the error
state with the failure message stored, no later stage's analyzer and
not the Scoring Engine is invoked, and the result lookup signals
JobFailed carrying that message instead of returning a Result. -/
theorem stage_failure_short_circuits (va aa ta : Except String ComponentScore)
    (m : String)
    (h : va = Except.error m ∨
      ((∃ s, va = Except.ok s) ∧ aa = Except.error m) ∨
      ((∃ s, va = Except.ok s) ∧ (∃ s, aa = Except.ok s) ∧
        ta = Except.error m)) :
    (runPipeline va aa ta).final.status = JobStatus.error ∧
    (runPipeline va aa ta).final.errorDetail = some m ∧
    (runPipeline va aa ta).scoringCalls = 0 ∧
    (va = Except.error m →
      (runPipeline va aa ta).audioCalls = 0 ∧
      (runPipeline va aa ta).textCalls = 0) ∧
    (((∃ s, va = Except.ok s) ∧ aa = Except.error m) →
      (runPipeline va aa ta).textCalls = 0) ∧
    getResultOfJob (runPipeline va aa ta).final =
      Except.error (JobError.jobFailed m) := by
  rcases h with hv | ⟨⟨s1, hv⟩, ha⟩ | ⟨⟨s1, hv⟩, ⟨s2, ha⟩, ht⟩
  · subst hv
    simp [runPipeline, getResultOfJob, initialJob]
  · subst hv; subst ha
    simp [runPipeline, getResultOfJob, initialJob]
  · subst hv; subst ha; subst ht
    simp [runPipeline, getResultOfJob, initialJob]

/-- Witness for C4: a concrete run in which the video analyzer fails. -/
theorem stage_failure_short_circuits_witness :
    (runPipeline (Except.error "video failed") (Except.ok sampleScore)
      (Except.ok sampleScore)).final.status = JobStatus.error ∧
    (runPipeline (Except.error "video failed") (Except.ok sampleScore)
      (Except.ok sampleScore)).final.errorDetail = some "video failed" ∧
    (runPipeline (Except.error "video failed") (Except.ok sampleScore)
      (Except.ok sampleScore)).scoringCalls = 0 ∧
    (Except.error "video failed" =
        (Except.error "video failed" : Except String ComponentScore) →
      (runPipeline (Except.error "video failed") (Except.ok sampleScore)
        (Except.ok sampleScore)).audioCalls = 0 ∧
      (runPipeline (Except.error "video failed") (Except.ok sampleScore)
        (Except.ok sampleScore)).textCalls = 0) ∧
    (((∃ s, (Except.error "video failed" : Except String ComponentScore) =
        Except.ok s) ∧
      (Except.ok sampleScore : Except String ComponentScore) =
        Except.error "video failed") →
      (runPipeline (Except.error "video failed") (Except.ok sampleScore)
        (Except.ok sampleScore)).textCalls = 0) ∧
    getResultOfJob (runPipeline (Except.error "video failed")
      (Except.ok sampleScore) (Except.ok sampleScore)).final =
      Except.error (JobError.jobFailed "video failed") :=
  stage_failure_short_circuits (Except.error "video failed")
    (Except.ok sampleScore) (Except.ok sampleScore) "video failed"
    (Or.inl rfl)

/-- Claim C5: a submission missing any required input yields
InvalidSubmission with no upload request issued, no job id produced
and listActive unchanged; a submission with all three inputs non-empty
allocates a new queued Job at progress 0. -/
theorem submission_validation :
    (∀ (videoFile resumeFile : Option String) (jd lc : String),
      (videoFile = none ∨ resumeFile = none ∨ jsTrim jd = "") →
      handleSubmit videoFile resumeFile jd lc = none) ∧
    (∀ (input : SubmissionInput) (t : JobTable),
      (input.video = "" ∨ input.resume = "" ∨ input.jobDescription = "") →
      createJob input t = (Except.error JobError.invalidSubmission, t) ∧
      listActive (createJob input t).2 = listActive t) ∧
    (∀ (input : SubmissionInput) (t : JobTable),
      input.video ≠ "" → input.resume ≠ "" → input.jobDescription ≠ "" →
      (createJob input t).1 = Except.ok t.nextId ∧
      (createJob input t).2.jobs.lookup t.nextId = some initialJob ∧
      initialJob.status = JobStatus.queued ∧ initialJob.progress = 0) := by
  refine ⟨?_, ?_, ?_⟩
  · intro videoFile resumeFile jd lc h
    rcases h with h | h | h
    · subst h; rfl
    · subst h; cases videoFile <;> rfl
    · cases videoFile with
      | none => rfl
      | some v =>
        cases resumeFile with
        | none => rfl
        | some r => simp [handleSubmit, h]
  · intro input t h
    have hc : (input.video = "" ∨ input.resume = "" ∨
        input.jobDescription = "") := h
    constructor
    · simp [createJob, if_pos hc]
    · simp [createJob, if_pos hc]
  · intro input t h1 h2 h3
    have hc : ¬(input.video = "" ∨ input.resume = "" ∨
        input.jobDescription = "") := by
      push_neg
      exact ⟨h1, h2, h3⟩
    refine ⟨by simp [createJob, if_neg hc], ?_, rfl, rfl⟩
    simp [createJob, if_neg hc, List.lookup]

/-- Witness for C5: a submission with an empty job description is
rejected on both the frontend and the modelled Job Manager, and a
fully populated submission allocates job id 0 on an empty table. -/
theorem submission_validation_witness :
    handleSubmit (some "clip.mp4") (some "cv.pdf") "   " "" = none ∧
    createJob ⟨"clip.mp4", "cv.pdf", "", none⟩ ⟨[], 0⟩ =
      (Except.error JobError.invalidSubmission, ⟨[], 0⟩) ∧
    (createJob ⟨"clip.mp4", "cv.pdf", "role", none⟩ ⟨[], 0⟩).1 =
      Except.ok 0 :=
  ⟨submission_validation.1 (some "clip.mp4") (some "cv.pdf") "   " ""
      (Or.inr (Or.inr (by decide))),
   (submission_validation.2.1 ⟨"clip.mp4", "cv.pdf", "", none⟩ ⟨[], 0⟩
      (Or.inr (Or.inr rfl))).1,
   (submission_validation.2.2 ⟨"clip.mp4", "cv.pdf", "role", none⟩ ⟨[], 0⟩
      (by decide) (by decide) (by decide)).1⟩

/-- Claim C6: over a job's lifetime progress is monotonically
non-decreasing, the status only moves forward through queued,
processing and the terminal states and is never revisited after a
terminal state, and progress reaches 100 exactly when the status
becomes completed. -/
theorem job_lifecycle_invariants (va aa ta : Except String ComponentScore) :
    List.Chain' (fun x y : Job => x.progress ≤ y.progress)
      (runPipeline va aa ta).trace ∧
    List.Chain' (fun x y : Job => statusRank x.status ≤ statusRank y.status)
      (runPipeline va aa ta).trace ∧
    ((runPipeline va aa ta).trace.dropLast.all
      (fun j => !(isTerminal j.status))) = true ∧
    (((runPipeline va aa ta).trace.any (fun j => j.progress == 100)) = true ↔
      ((runPipeline va aa ta).trace.any
        (fun j => j.status == JobStatus.completed)) = true) := by
  rcases va with m | sv
  · simp [runPipeline, initialJob, statusRank, isTerminal]
  · rcases aa with m | sa
    · simp [runPipeline, initialJob, statusRank, isTerminal]
    · rcases ta with m | st
      · simp [runPipeline, initialJob, statusRank, isTerminal]
      · simp [runPipeline, initialJob, statusRank, isTerminal]

/-- Claim C7: status and result on an unknown id signal JobNotFound;
result on a known job that is neither completed nor errored signals
JobNotReady; result returns a Result only for a completed job. -/
theorem query_semantics :
    (∀ (t : JobTable) (id : ℕ), t.jobs.lookup id = none →
      getStatus t id = Except.error JobError.jobNotFound ∧
      getResult t id = Except.error JobError.jobNotFound) ∧
    (∀ (t : JobTable) (id : ℕ) (j : Job), t.jobs.lookup id = some j →
      j.status ≠ JobStatus.completed → j.status ≠ JobStatus.error →
      getResult t id = Except.error JobError.jobNotReady) ∧
    (∀ (t : JobTable) (id : ℕ) (r : ScoreResult),
      getResult t id = Except.ok r →
      ∃ j, t.jobs.lookup id = some j ∧ j.status = JobStatus.completed) := by
  refine ⟨?_, ?_, ?_⟩
  · intro t id h
    constructor
    · simp [getStatus, h]
    · simp [getResult, h]
  · intro t id j h hc he
    rw [getResult, h]
    cases hs : j.status with
    | completed => exact absurd hs hc
    | error => exact absurd hs he
    | queued => simp [getResultOfJob, hs]
    | processing => simp [getResultOfJob, hs]
  · intro t id r h
    rw [getResult] at h
    cases hl : t.jobs.lookup id with
    | none => rw [hl] at h; exact absurd h (by simp)
    | some j =>
      rw [hl] at h
      refine ⟨j, rfl, ?_⟩
      cases hs : j.status with
      | completed => rfl
      | error => simp [getResultOfJob, hs] at h
      | queued => simp [getResultOfJob, hs] at h
      | processing => simp [getResultOfJob, hs] at h

/-- Witness for C7: on an empty table id 5 is unknown, and a table
holding one processing job answers JobNotReady. -/
theorem query_semantics_witness :
    getStatus ⟨[], 0⟩ 5 = Except.error JobError.jobNotFound ∧
    getResult ⟨[], 0⟩ 5 = Except.error JobError.jobNotFound ∧
    getResult ⟨[(0, ⟨JobStatus.processing, 40, "Analyzing", none, none⟩)], 1⟩ 0 =
      Except.error JobError.jobNotReady :=
  ⟨(query_semantics.1 ⟨[], 0⟩ 5 rfl).1,
   (query_semantics.1 ⟨[], 0⟩ 5 rfl).2,
   query_semantics.2.1 ⟨[(0, ⟨JobStatus.processing, 40, "Analyzing", none, none⟩)], 1⟩
     0 ⟨JobStatus.processing, 40, "Analyzing", none, none⟩ rfl
     (by decide) (by decide)⟩

/-- Claim C8: the verdict is a deterministic pure function of the
cumulative score and the three component scores — identical inputs to
the Scoring Engine yield identical verdict, strengths and
improvements. -/
theorem verdict_deterministic (es sa st es2 sa2 st2 : ComponentScore)
    (h : es = es2 ∧ sa = sa2 ∧ st = st2) :
    scoringEngine es sa st = scoringEngine es2 sa2 st2 ∧
    (scoringEngine es sa st).verdict =
      scoreVerdict (cumulativeScore es.value sa.value st.value)
        es.value sa.value st.value := by
  obtain ⟨h1, h2, h3⟩ := h
  subst h1; subst h2; subst h3
  exact ⟨rfl, rfl⟩

/-- Witness for C8: two invocations on the same concrete scores agree. -/
theorem verdict_deterministic_witness :
    scoringEngine sampleScore sampleScore sampleScore =
      scoringEngine sampleScore sampleScore sampleScore ∧
    (scoringEngine sampleScore sampleScore sampleScore).verdict =
      scoreVerdict (cumulativeScore sampleScore.value sampleScore.value
        sampleScore.value) sampleScore.value sampleScore.value
        sampleScore.value :=
  verdict_deterministic sampleScore sampleScore sampleScore
    sampleScore sampleScore sampleScore ⟨rfl, rfl, rfl⟩

end DigitalHiring
